import Mathlib

/-!
# rt-can-test: the CAN transport (can.c / can.h) and the test harness helpers

A shallow embedding of `src/can.c`, `src/can.h` and the arithmetic helpers of
`src/rt-can-test.c`.

System calls are modelled by explicit state passing over a `World` (the set of
open descriptors, the ordered log of calls issued, the live handle allocations,
and the number of bytes written past a fixed-size buffer).  What the operating
system answers to each call is an input of the model (`OpenOutcomes`,
`CloseOutcome`, `SendOutcome`, `ReadOutcome`), so a statement quantified over
these records holds for every combination of system-call outcomes.

C integers are modelled by `Int` / `Nat`.  The arithmetic of `calc_time_diff` on
the 64-bit fields of `struct timespec` wraps modulo 2^64 (`wrap64`); no other
modelled code computes with values near the ends of a machine range.
-/

namespace RtCanTest

/-! ## Constants that come from system headers -/

/-- Constants taken from the system headers that can.c includes
(`net/if.h`, `linux/can.h`, `errno.h`); none of them is defined in the
repository itself. -/
structure Platform where
  /-- size of `ifr_name` in `struct ifreq` -/
  IFNAMSIZ : Nat
  /-- the value of `sizeof(struct can_frame)` -/
  CAN_MTU : Nat
  /-- the value of `sizeof(struct canfd_frame)` -/
  CANFD_MTU : Int
  EAGAIN : Int
  EWOULDBLOCK : Int

/-- The values on Linux: `IFNAMSIZ` is 16 (`net/if.h`); `CAN_MTU` is
`sizeof(struct can_frame)` = 16 and `CANFD_MTU` is
`sizeof(struct canfd_frame)` = 72 (`linux/can.h`); `EAGAIN` and
`EWOULDBLOCK` are both 11 (`errno.h`). -/
def linux : Platform :=
  { IFNAMSIZ := 16, CAN_MTU := 16, CANFD_MTU := 72, EAGAIN := 11, EWOULDBLOCK := 11 }

/-! ## Data model (can.h, can.c) -/

/-- One receive filter rule, `struct can_filter` of `linux/can.h`. -/
structure can_filter where
  can_id : Nat
  can_mask : Nat
  deriving DecidableEq, Repr

/-- The frame record `struct canfd_frame` of `linux/can.h`. -/
structure canfd_frame where
  can_id : Nat
  len : Nat
  flags : Nat
  data : List Nat
  deriving DecidableEq, Repr

/-- The configuration `struct can_cfg` of can.h.  The pointer `rx_filter` is
`none` when it is NULL. -/
structure can_cfg where
  ifname : String
  mtu : Nat
  rx_filter : Option (List can_filter)
  rx_filter_len : Nat
  deriving DecidableEq, Repr

/-- The handle `struct can_hdl` of can.c. -/
structure can_hdl where
  fd : Int
  ifindex : Int
  deriving DecidableEq, Repr

/-! ## The operating system as seen by can.c -/

/-- The system calls can.c issues, with the arguments that matter. -/
inductive Syscall where
  | socket
  | ioctl_SIOCGIFINDEX (fd : Int) (ifr_name : String)
  | ioctl_SIOCGIFMTU (fd : Int)
  | setsockopt_CAN_RAW_FD_FRAMES (fd : Int)
  | bind (fd : Int) (can_ifindex : Int)
  | setsockopt_CAN_RAW_FILTER (fd : Int) (filter : List can_filter) (len : Nat)
  | close (fd : Int)
  | read (fd : Int)
  | sendto_MSG_DONTWAIT (fd : Int) (frame : canfd_frame) (can_ifindex : Int)
  deriving DecidableEq, Repr

/-- The part of the process state that can.c changes. -/
structure World where
  /-- descriptors currently open in the process -/
  open_fds : List Int
  /-- the system calls issued so far, oldest first -/
  trace : List Syscall
  /-- number of `struct can_hdl` blocks currently allocated -/
  heap_hdls : Nat
  /-- bytes written so far beyond the end of a fixed-size buffer -/
  oob_bytes : Nat
  /-- the receive filter the kernel has installed, if any -/
  installed_filter : Option (List can_filter)
  deriving DecidableEq, Repr

/-- A fresh process state: nothing open, nothing issued. -/
def World.empty : World :=
  { open_fds := [], trace := [], heap_hdls := 0, oob_bytes := 0, installed_filter := none }

/-- Append a call to the log. -/
def World.log (w : World) (c : Syscall) : World :=
  { w with trace := w.trace ++ [c] }

/-- What the environment answers during one call of `can_open`. -/
structure OpenOutcomes where
  /-- whether `malloc` returns a non-NULL block -/
  malloc_ok : Bool
  /-- return value of `socket` -/
  socket_ret : Int
  /-- return value of `ioctl(SIOCGIFINDEX)` -/
  ifindex_ret : Int
  /-- the value of `ifr.ifr_ifindex` after that ioctl -/
  ifr_ifindex : Int
  /-- return value of `ioctl(SIOCGIFMTU)` -/
  ifmtu_ret : Int
  /-- the value of `ifr.ifr_mtu` after that ioctl -/
  ifr_mtu : Int
  /-- return value of `setsockopt(CAN_RAW_FD_FRAMES)` -/
  fd_frames_ret : Int
  /-- return value of `bind` -/
  bind_ret : Int
  /-- return value of `setsockopt(CAN_RAW_FILTER)` -/
  filter_ret : Int
  deriving DecidableEq, Repr

/-- What the environment answers to `close`. -/
structure CloseOutcome where
  ret : Int
  errno : Int
  deriving DecidableEq, Repr

/-- What the environment answers to `sendto`. -/
structure SendOutcome where
  nbytes : Int
  errno : Int
  deriving DecidableEq, Repr

/-- What the environment answers to `read`. -/
structure ReadOutcome where
  nbytes : Int
  frame : canfd_frame
  deriving DecidableEq, Repr

/-- The value of `strlen` on a C string: the number of bytes (of the UTF-8
encoding) before the first NUL. -/
def strlen (s : String) : Nat :=
  ((s.toList.takeWhile (fun c => c ≠ Char.ofNat 0)).map Char.utf8Size).sum

/-- The effect of `strcpy(ifr.ifr_name, cfg->ifname)` (can.c line 40):
`strcpy` copies the `strlen` bytes of the name and the terminating NUL,
whatever the size of the destination, which is `IFNAMSIZ` bytes long.  The
bytes that do not fit are written past the buffer and counted in `oob_bytes`.
Once that count is non-zero the behaviour of the C program is undefined (it
may crash or abort); `can_socket_cfg` below then follows the execution in
which the stray bytes do no harm.  A statement that promises a result of
`can_open` is therefore made for names with `strlen` below `IFNAMSIZ` only. -/
def strcpy_ifr_name (P : Platform) (w : World) (ifname : String) : World :=
  { w with oob_bytes := w.oob_bytes + ((strlen ifname + 1) - P.IFNAMSIZ) }

/-- The effect of `socket`: a non-negative result is a new open descriptor. -/
def sys_socket (ret : Int) (w : World) : World :=
  let w1 := w.log Syscall.socket
  if 0 ≤ ret then { w1 with open_fds := ret :: w1.open_fds } else w1

/-- The effect of `close`: the descriptor is released (on Linux also when
the call reports an error). -/
def sys_close (fd : Int) (w : World) : World :=
  let w1 := w.log (Syscall.close fd)
  { w1 with open_fds := w1.open_fds.erase fd }

/-- The effect of `setsockopt(CAN_RAW_FILTER)`: the filter is installed when
the call returns 0. -/
def sys_set_filter (ret : Int) (fd : Int) (filter : List can_filter) (len : Nat)
    (w : World) : World :=
  let w1 := w.log (Syscall.setsockopt_CAN_RAW_FILTER fd filter len)
  if ret = 0 then { w1 with installed_filter := some filter } else w1

/-! ## can.c -/

/-- The function `can_socket_cfg` of can.c (lines 33-106).  Returns `ret`, the
handle as left by the function, and the new process state.  Every `goto out`
is an early result. -/
def can_socket_cfg (P : Platform) (o : OpenOutcomes) (w : World) (hdl : can_hdl)
    (cfg : can_cfg) : Int × can_hdl × World :=
  -- memset(&ifr, 0, sizeof(ifr)); strcpy(ifr.ifr_name, cfg->ifname);
  let w1 := strcpy_ifr_name P w cfg.ifname
  -- hdl->fd = socket(PF_CAN, SOCK_RAW, CAN_RAW);
  let w2 := sys_socket o.socket_ret w1
  let hdl1 : can_hdl := { hdl with fd := o.socket_ret }
  if hdl1.fd < 0 then (-1, hdl1, w2) else
  -- ioctl(hdl->fd, SIOCGIFINDEX, &ifr)
  let w3 := w2.log (Syscall.ioctl_SIOCGIFINDEX hdl1.fd (cfg.ifname.take P.IFNAMSIZ))
  if o.ifindex_ret = -1 then (-2, hdl1, w3) else
  -- hdl->ifindex = ifr.ifr_ifindex;
  let hdl2 : can_hdl := { hdl1 with ifindex := o.ifr_ifindex }
  -- lines 89-102: bind, then the optional filter
  let bind_and_filter := fun (w : World) =>
    let w6 := w.log (Syscall.bind hdl2.fd hdl2.ifindex)
    let ret := o.bind_ret
    if ret < 0 then (-6, hdl2, w6) else
    match cfg.rx_filter with
    | some filter =>
        (ret, hdl2, sys_set_filter o.filter_ret hdl2.fd filter cfg.rx_filter_len w6)
    | none => (ret, hdl2, w6)
  if cfg.mtu > P.CAN_MTU then
    -- ioctl(hdl->fd, SIOCGIFMTU, &ifr)
    let w4 := w3.log (Syscall.ioctl_SIOCGIFMTU hdl2.fd)
    if o.ifmtu_ret = -1 then (-3, hdl2, w4) else
    -- mtu = ifr.ifr_mtu; if (mtu != CANFD_MTU)
    -- (the int is converted to size_t for the comparison; no int other than
    -- the value of CANFD_MTU converts to it)
    if o.ifr_mtu ≠ P.CANFD_MTU then (-4, hdl2, w4) else
    -- setsockopt(hdl->fd, SOL_CAN_RAW, CAN_RAW_FD_FRAMES, ...)
    let w5 := w4.log (Syscall.setsockopt_CAN_RAW_FD_FRAMES hdl2.fd)
    if o.fd_frames_ret ≠ 0 then (-5, hdl2, w5) else
    bind_and_filter w5
  else
    bind_and_filter w3

/-- The function `can_open` of can.c (lines 108-130).  The second component is
`*hdl` after the call (`none` is NULL). -/
def can_open (P : Platform) (o : OpenOutcomes) (w : World) (cfg : can_cfg) :
    Int × Option can_hdl × World :=
  -- *hdl = malloc(sizeof(struct can_hdl)); if (!*hdl) { ret = -1; goto err; }
  if o.malloc_ok = false then (-1, none, w) else
  let w1 := { w with heap_hdls := w.heap_hdls + 1 }
  -- memset(*hdl, 0, sizeof(struct can_hdl));
  let hdl0 : can_hdl := { fd := 0, ifindex := 0 }
  let r := can_socket_cfg P o w1 hdl0 cfg
  -- err: free(*hdl); *hdl = NULL;
  if r.1 ≠ 0 then (r.1, none, { r.2.2 with heap_hdls := r.2.2.heap_hdls - 1 })
  else (r.1, some r.2.1, r.2.2)

/-- The function `can_close` of can.c (lines 132-149).  The argument is the
pointer `hdl`: `none` is a NULL `hdl`, `some none` is a NULL `*hdl`.  The
second component is the pointer with `*hdl` as left by the call. -/
def can_close (o : CloseOutcome) (w : World) (hdl : Option (Option can_hdl)) :
    Int × Option (Option can_hdl) × World :=
  match hdl with
  | none => (-1, none, w)
  | some none => (-1, some none, w)
  | some (some h) =>
      -- ret = close((*hdl)->fd); if (ret < 0) ret = -errno;
      let w1 := sys_close h.fd w
      let ret := if o.ret < 0 then -o.errno else o.ret
      -- free(*hdl); *hdl = NULL;
      (ret, some none, { w1 with heap_hdls := w1.heap_hdls - 1 })

/-- The function `can_read` of can.c (lines 151-154). -/
def can_read (o : ReadOutcome) (w : World) (hdl : can_hdl) :
    Int × canfd_frame × World :=
  (o.nbytes, o.frame, w.log (Syscall.read hdl.fd))

/-- The function `can_write` of can.c (lines 156-174). -/
def can_write (P : Platform) (o : SendOutcome) (w : World) (hdl : can_hdl)
    (frame : canfd_frame) : Int × World :=
  let w1 := w.log (Syscall.sendto_MSG_DONTWAIT hdl.fd frame hdl.ifindex)
  let nbytes := o.nbytes
  if nbytes < 0 ∧ (o.errno = P.EAGAIN ∨ o.errno = P.EWOULDBLOCK) then (0, w1)
  else (nbytes, w1)

/-! ## rt-can-test.c -/

/-- The record `struct timespec`. -/
structure timespec where
  tv_sec : Int
  tv_nsec : Int
  deriving DecidableEq, Repr

/-- The result of an arithmetic operation stored in a signed 64-bit field
(`time_t` and `long` on 64-bit Linux): the exact value reduced modulo 2^64 into
[-2^63, 2^63). -/
def wrap64 (x : Int) : Int :=
  (x + 9223372036854775808) % 18446744073709551616 - 9223372036854775808

/-- The function `calc_time_diff` of rt-can-test.c (lines 136-146); the result
is `*diff`. -/
def calc_time_diff (lo hi : timespec) : timespec :=
  -- diff->tv_sec = hi->tv_sec - lo->tv_sec; diff->tv_nsec = hi->tv_nsec - lo->tv_nsec;
  let diff : timespec :=
    { tv_sec := wrap64 (hi.tv_sec - lo.tv_sec), tv_nsec := wrap64 (hi.tv_nsec - lo.tv_nsec) }
  -- if (diff->tv_nsec < 0) { diff->tv_sec--; diff->tv_nsec += 1000000000; }
  if diff.tv_nsec < 0 then
    { tv_sec := wrap64 (diff.tv_sec - 1), tv_nsec := wrap64 (diff.tv_nsec + 1000000000) }
  else diff

/-- What the TX loop does after a frame has been written. -/
inductive TxNext where
  /-- the loop is left (`break`) -/
  | terminate
  /-- the sleep is skipped (`continue`) -/
  | skip_sleep
  /-- the thread sleeps for the given time -/
  | sleep (sleep_time : timespec)
  deriving DecidableEq, Repr

/-- The rest of one iteration of the loop of `can_tx_thread_fn` after a
successful `can_write` (rt-can-test.c lines 172-189); `end_time` is what the
second `clock_gettime` reads. -/
def can_tx_thread_fn_step (start_time end_time tx_interval : timespec) : TxNext :=
  -- if (!tx_interval.tv_sec && !tx_interval.tv_nsec) break;
  if tx_interval.tv_sec = 0 ∧ tx_interval.tv_nsec = 0 then TxNext.terminate else
  let elapsed_time := calc_time_diff start_time end_time
  let sleep_time := calc_time_diff elapsed_time tx_interval
  -- if (sleep_time.tv_sec < 0) continue;
  if sleep_time.tv_sec < 0 then TxNext.skip_sleep else TxNext.sleep sleep_time

/-- A timespec as a number of nanoseconds. -/
def timespec.ns (t : timespec) : Int := t.tv_sec * 1000000000 + t.tv_nsec

/-- A timespec is normalized when its nanosecond field is in [0, 10^9). -/
def timespec.normalized (t : timespec) : Prop := 0 ≤ t.tv_nsec ∧ t.tv_nsec < 1000000000

instance (t : timespec) : Decidable t.normalized := by
  unfold timespec.normalized; infer_instance

/-- The seconds of `hi` and `lo` differ by less than 2^63 either way, so that
neither the subtraction of the seconds nor the borrow leaves the 64-bit
range. -/
def sec_diff_fits (lo hi : timespec) : Prop :=
  -9223372036854775808 < hi.tv_sec - lo.tv_sec ∧ hi.tv_sec - lo.tv_sec < 9223372036854775808

instance (lo hi : timespec) : Decidable (sec_diff_fits lo hi) := by
  unfold sec_diff_fits; infer_instance

/-- The supported payload lengths, in increasing order. -/
def supported_lens : List Nat := [0, 1, 2, 3, 4, 5, 6, 7, 8, 12, 16, 20, 24, 32, 48, 64]

/-- Modelled from the spec: `can_dlc2len` of lib.c, which is not among the
sources.  The spec gives the supported lengths {0,...,8,12,16,20,24,32,48,64};
the 4-bit length code selects them in increasing order. -/
def can_dlc2len (can_dlc : Nat) : Nat := supported_lens.getD (can_dlc % 16) 0

/-- Modelled from the spec: `can_len2dlc` of lib.c, which is not among the
sources.  The spec says a length that is not supported is normalized down to
the nearest supported value: the code of a length is that of the largest
supported length not exceeding it. -/
def can_len2dlc (len : Nat) : Nat := (supported_lens.filter (fun l => l ≤ len)).length - 1

/-- The length normalisation of the `--tx` option in `main`
(rt-can-test.c line 284): the new value of `can_tx_frame->len`. -/
def main_tx_frame_len (frame : canfd_frame) : canfd_frame :=
  { frame with len := can_dlc2len (can_len2dlc frame.len) }

/-! ## Observations and concrete inputs -/

/-- The calls issued between two process states, oldest first. -/
def calls_since (w0 w1 : World) : List Syscall := w1.trace.drop w0.trace.length

/-- A frame with identifier 0x123 and four payload bytes. -/
def frame_123 : canfd_frame := { can_id := 0x123, len := 4, flags := 0, data := [1, 2, 3, 4] }

/-- An open handle: descriptor 3 bound to interface index 4. -/
def hdl_3_4 : can_hdl := { fd := 3, ifindex := 4 }

/-- Every call succeeds: descriptor 3, interface index 4, a classic CAN
interface (MTU 16). -/
def all_ok : OpenOutcomes :=
  { malloc_ok := true, socket_ret := 3, ifindex_ret := 0, ifr_ifindex := 4,
    ifmtu_ret := 0, ifr_mtu := 16, fd_frames_ret := 0, bind_ret := 0, filter_ret := 0 }

/-- The socket is created as descriptor 3 and the index lookup fails. -/
def no_such_interface : OpenOutcomes :=
  { malloc_ok := true, socket_ret := 3, ifindex_ret := -1, ifr_ifindex := 0,
    ifmtu_ret := 0, ifr_mtu := 0, fd_frames_ret := 0, bind_ret := 0, filter_ret := 0 }

/-- A classic configuration on an interface that does not exist. -/
def cfg_missing_if : can_cfg :=
  { ifname := "doesnotexist0", mtu := 0, rx_filter := none, rx_filter_len := 0 }

/-- A classic configuration on `vcan0`. -/
def cfg_vcan0 : can_cfg :=
  { ifname := "vcan0", mtu := 0, rx_filter := none, rx_filter_len := 0 }

/-- A configuration asking for an MTU of 12 on `can0`. -/
def cfg_mtu_12 : can_cfg :=
  { ifname := "can0", mtu := 12, rx_filter := none, rx_filter_len := 0 }

/-- A configuration whose interface name has 16 characters, one more than
fits in `ifr_name` together with the terminator. -/
def cfg_long_name : can_cfg :=
  { ifname := "abcdefghijklmnop", mtu := 0, rx_filter := none, rx_filter_len := 0 }

/-- One second before the epoch. -/
def ts_minus_one : timespec := { tv_sec := -1, tv_nsec := 0 }

/-- The last second a 64-bit `time_t` can hold. -/
def ts_int64_max : timespec := { tv_sec := 9223372036854775807, tv_nsec := 0 }

/-- A configuration with one receive filter rule. -/
def cfg_filtered : can_cfg :=
  { ifname := "vcan0", mtu := 0, rx_filter := some [{ can_id := 0x123, can_mask := 0x7FF }],
    rx_filter_len := 8 }

end RtCanTest

namespace RtCanTest

/-! ## Bookkeeping lemmas on the process state -/

@[simp] theorem log_trace (w : World) (c : Syscall) : (w.log c).trace = w.trace ++ [c] := rfl

@[simp] theorem log_open_fds (w : World) (c : Syscall) : (w.log c).open_fds = w.open_fds := rfl

@[simp] theorem strcpy_ifr_name_trace (P : Platform) (w : World) (n : String) :
    (strcpy_ifr_name P w n).trace = w.trace := rfl

@[simp] theorem strcpy_ifr_name_open_fds (P : Platform) (w : World) (n : String) :
    (strcpy_ifr_name P w n).open_fds = w.open_fds := rfl

@[simp] theorem sys_socket_trace (r : Int) (w : World) :
    (sys_socket r w).trace = w.trace ++ [Syscall.socket] := by
  unfold sys_socket
  split_ifs <;> rfl

@[simp] theorem sys_set_filter_trace (r fd : Int) (f : List can_filter) (n : Nat) (w : World) :
    (sys_set_filter r fd f n w).trace =
      w.trace ++ [Syscall.setsockopt_CAN_RAW_FILTER fd f n] := by
  unfold sys_set_filter
  split_ifs <;> rfl

@[simp] theorem sys_set_filter_open_fds (r fd : Int) (f : List can_filter) (n : Nat)
    (w : World) : (sys_set_filter r fd f n w).open_fds = w.open_fds := by
  unfold sys_set_filter
  split_ifs <;> rfl

/-! ## can_write -/

/-- Claim C1. For every handle, frame and outcome of the non-blocking send,
`can_write` issues that one send; it returns 0 when the send result is negative
with errno EAGAIN or EWOULDBLOCK, and the send result unchanged otherwise: a
negative result with any other errno comes back negative, a non-negative byte
count comes back as is. -/
theorem can_write_contract (P : Platform) (o : SendOutcome) (w : World) (hdl : can_hdl)
    (frame : canfd_frame) :
    (o.nbytes < 0 ∧ (o.errno = P.EAGAIN ∨ o.errno = P.EWOULDBLOCK) →
        (can_write P o w hdl frame).1 = 0) ∧
    (¬ (o.nbytes < 0 ∧ (o.errno = P.EAGAIN ∨ o.errno = P.EWOULDBLOCK)) →
        (can_write P o w hdl frame).1 = o.nbytes) ∧
    (o.nbytes < 0 → o.errno ≠ P.EAGAIN → o.errno ≠ P.EWOULDBLOCK →
        (can_write P o w hdl frame).1 = o.nbytes ∧ (can_write P o w hdl frame).1 < 0) ∧
    (0 ≤ o.nbytes → (can_write P o w hdl frame).1 = o.nbytes) ∧
    calls_since w (can_write P o w hdl frame).2 =
      [Syscall.sendto_MSG_DONTWAIT hdl.fd frame hdl.ifindex] := by
  refine ⟨?_, ?_, ?_, ?_, ?_⟩
  · intro h
    simp [can_write, h]
  · intro h
    simp only [can_write, if_neg h]
  · intro h1 h2 h3
    have h : ¬ (o.nbytes < 0 ∧ (o.errno = P.EAGAIN ∨ o.errno = P.EWOULDBLOCK)) := by
      rintro ⟨_, h | h⟩
      · exact h2 h
      · exact h3 h
    simp only [can_write, if_neg h]
    exact ⟨trivial, h1⟩
  · intro h
    have h1 : ¬ (o.nbytes < 0 ∧ (o.errno = P.EAGAIN ∨ o.errno = P.EWOULDBLOCK)) := by
      rintro ⟨h2, _⟩
      omega
    simp only [can_write, if_neg h1]
  · unfold can_write calls_since
    simp only []
    split_ifs <;> simp

/-- On Linux a send that fails with errno 11 (EAGAIN) makes `can_write`
return 0, and one that fails with errno 19 (ENODEV) returns -1. -/
theorem can_write_contract_witness :
    (can_write linux { nbytes := -1, errno := 11 } World.empty hdl_3_4 frame_123).1 = 0 ∧
    (can_write linux { nbytes := -1, errno := 19 } World.empty hdl_3_4 frame_123).1 = -1 :=
  ⟨(can_write_contract linux { nbytes := -1, errno := 11 } World.empty hdl_3_4 frame_123).1
      (by decide),
   ((can_write_contract linux { nbytes := -1, errno := 19 } World.empty hdl_3_4
      frame_123).2.2.1 (by decide) (by decide) (by decide)).1⟩

end RtCanTest

namespace RtCanTest

/-! ## can_open -/

/-- The calls of `can_open` never include a `close`, whatever happens. -/
theorem can_open_never_closes (P : Platform) (o : OpenOutcomes) (w : World) (cfg : can_cfg)
    (fd : Int) : Syscall.close fd ∉ calls_since w (can_open P o w cfg).2.2 := by
  by_cases hm : o.malloc_ok = false
  · simp [can_open, calls_since, hm]
  by_cases hs : o.socket_ret < 0
  · simp [can_open, can_socket_cfg, calls_since, hm, hs]
  by_cases hi : o.ifindex_ret = -1
  · simp [can_open, can_socket_cfg, calls_since, hm, hs, hi]
  by_cases hb : o.bind_ret < 0
  · have hb0 : o.bind_ret ≠ 0 := by omega
    by_cases hmtu : cfg.mtu > P.CAN_MTU
    · by_cases h3 : o.ifmtu_ret = -1
      · simp [can_open, can_socket_cfg, calls_since, hm, hs, hi, hmtu, h3]
      by_cases h4 : o.ifr_mtu = P.CANFD_MTU
      swap
      · simp [can_open, can_socket_cfg, calls_since, hm, hs, hi, hmtu, h3, h4]
      by_cases h5 : o.fd_frames_ret = 0
      swap
      · simp [can_open, can_socket_cfg, calls_since, hm, hs, hi, hmtu, h3, h4, h5]
      simp [can_open, can_socket_cfg, calls_since, hm, hs, hi, hmtu, h3, h4, h5, hb, hb0]
    · simp [can_open, can_socket_cfg, calls_since, hm, hs, hi, hmtu, hb, hb0]
  · by_cases hmtu : cfg.mtu > P.CAN_MTU
    · by_cases h3 : o.ifmtu_ret = -1
      · simp [can_open, can_socket_cfg, calls_since, hm, hs, hi, hmtu, h3]
      by_cases h4 : o.ifr_mtu = P.CANFD_MTU
      swap
      · simp [can_open, can_socket_cfg, calls_since, hm, hs, hi, hmtu, h3, h4]
      by_cases h5 : o.fd_frames_ret = 0
      swap
      · simp [can_open, can_socket_cfg, calls_since, hm, hs, hi, hmtu, h3, h4, h5]
      by_cases hb0 : o.bind_ret = 0 <;> cases hf : cfg.rx_filter <;>
        simp [can_open, can_socket_cfg, calls_since, hm, hs, hi, hmtu, h3, h4, h5, hb, hb0, hf]
    · by_cases hb0 : o.bind_ret = 0 <;> cases hf : cfg.rx_filter <;>
        simp [can_open, can_socket_cfg, calls_since, hm, hs, hi, hmtu, hb, hb0, hf]

/-- Once `socket` has returned a descriptor, that descriptor is open after
`can_open`, on the success path and on every failure path alike. -/
theorem can_open_keeps_descriptor (P : Platform) (o : OpenOutcomes) (w : World)
    (cfg : can_cfg) (hm : o.malloc_ok = true) (hs : 0 ≤ o.socket_ret) :
    (can_open P o w cfg).2.2.open_fds = o.socket_ret :: w.open_fds := by
  have hs1 : ¬ o.socket_ret < 0 := not_lt.mpr hs
  by_cases hi : o.ifindex_ret = -1
  · simp [can_open, can_socket_cfg, sys_socket, hm, hs, hs1, hi]
  by_cases hb : o.bind_ret < 0
  · have hb0 : o.bind_ret ≠ 0 := by omega
    by_cases hmtu : cfg.mtu > P.CAN_MTU
    · by_cases h3 : o.ifmtu_ret = -1
      · simp [can_open, can_socket_cfg, sys_socket, hm, hs, hs1, hi, hmtu, h3]
      by_cases h4 : o.ifr_mtu = P.CANFD_MTU
      swap
      · simp [can_open, can_socket_cfg, sys_socket, hm, hs, hs1, hi, hmtu, h3, h4]
      by_cases h5 : o.fd_frames_ret = 0
      swap
      · simp [can_open, can_socket_cfg, sys_socket, hm, hs, hs1, hi, hmtu, h3, h4, h5]
      simp [can_open, can_socket_cfg, sys_socket, hm, hs, hs1, hi, hmtu, h3, h4, h5, hb, hb0]
    · simp [can_open, can_socket_cfg, sys_socket, hm, hs, hs1, hi, hmtu, hb, hb0]
  · by_cases hmtu : cfg.mtu > P.CAN_MTU
    · by_cases h3 : o.ifmtu_ret = -1
      · simp [can_open, can_socket_cfg, sys_socket, hm, hs, hs1, hi, hmtu, h3]
      by_cases h4 : o.ifr_mtu = P.CANFD_MTU
      swap
      · simp [can_open, can_socket_cfg, sys_socket, hm, hs, hs1, hi, hmtu, h3, h4]
      by_cases h5 : o.fd_frames_ret = 0
      swap
      · simp [can_open, can_socket_cfg, sys_socket, hm, hs, hs1, hi, hmtu, h3, h4, h5]
      by_cases hb0 : o.bind_ret = 0 <;> cases hf : cfg.rx_filter <;>
        simp [can_open, can_socket_cfg, sys_socket, hm, hs, hs1, hi, hmtu, h3, h4, h5, hb,
          hb0, hf]
    · by_cases hb0 : o.bind_ret = 0 <;> cases hf : cfg.rx_filter <;>
        simp [can_open, can_socket_cfg, sys_socket, hm, hs, hs1, hi, hmtu, hb, hb0, hf]

/-- Claim C2, evaluated where it fails. The socket call returns descriptor 3
and the index lookup fails: `can_open` returns -2 with a NULL handle, no close
has been issued, and descriptor 3, which was not open before the call, is open
after it. -/
theorem can_open_failure_leaks_descriptor :
    (can_open linux no_such_interface World.empty cfg_missing_if).1 = -2 ∧
    (can_open linux no_such_interface World.empty cfg_missing_if).2.1 = none ∧
    World.empty.open_fds = [] ∧
    (can_open linux no_such_interface World.empty cfg_missing_if).2.2.open_fds = [3] ∧
    (can_open linux no_such_interface World.empty cfg_missing_if).2.2.trace =
      [Syscall.socket, Syscall.ioctl_SIOCGIFINDEX 3 "doesnotexist0"] := by
  decide

/-- Claim C3. For every configuration and every combination of allocation and
system-call outcomes, `can_open` returns 0 exactly when the handle is non-NULL
after the call, a non-zero return leaves the handle NULL, and a zero return
means that allocation, socket creation, index lookup and bind all succeeded,
that the handle holds the descriptor returned by `socket` and the index
returned by the lookup, and that `bind` was issued on that descriptor with
that index. -/
theorem can_open_handle_all_or_nothing (P : Platform) (o : OpenOutcomes) (w : World)
    (cfg : can_cfg) :
    ((can_open P o w cfg).1 = 0 ↔ (can_open P o w cfg).2.1 ≠ none) ∧
    ((can_open P o w cfg).1 ≠ 0 → (can_open P o w cfg).2.1 = none) ∧
    ((can_open P o w cfg).1 = 0 →
      o.malloc_ok = true ∧ 0 ≤ o.socket_ret ∧ o.ifindex_ret ≠ -1 ∧ o.bind_ret = 0 ∧
      (can_open P o w cfg).2.1 = some { fd := o.socket_ret, ifindex := o.ifr_ifindex } ∧
      Syscall.bind o.socket_ret o.ifr_ifindex ∈ calls_since w (can_open P o w cfg).2.2) := by
  by_cases hm : o.malloc_ok = false
  · simp [can_open, hm]
  by_cases hs : o.socket_ret < 0
  · simp [can_open, can_socket_cfg, hm, hs]
  by_cases hi : o.ifindex_ret = -1
  · simp [can_open, can_socket_cfg, hm, hs, hi]
  have hs1 : 0 ≤ o.socket_ret := not_lt.mp hs
  by_cases hmtu : cfg.mtu > P.CAN_MTU
  · by_cases h3 : o.ifmtu_ret = -1
    · simp [can_open, can_socket_cfg, hm, hs, hi, hmtu, h3]
    by_cases h4 : o.ifr_mtu = P.CANFD_MTU
    swap
    · simp [can_open, can_socket_cfg, hm, hs, hi, hmtu, h3, h4]
    by_cases h5 : o.fd_frames_ret = 0
    swap
    · simp [can_open, can_socket_cfg, hm, hs, hi, hmtu, h3, h4, h5]
    by_cases hb : o.bind_ret < 0
    · simp [can_open, can_socket_cfg, hm, hs, hi, hmtu, h3, h4, h5, hb]
    by_cases hb0 : o.bind_ret = 0
    · cases hf : cfg.rx_filter <;>
        simp [can_open, can_socket_cfg, calls_since, hm, hs, hs1, hi, hmtu, h3, h4, h5, hb0,
          hf]
    · cases hf : cfg.rx_filter <;>
        simp [can_open, can_socket_cfg, hm, hs, hi, hmtu, h3, h4, h5, hb, hb0, hf]
  · by_cases hb : o.bind_ret < 0
    · simp [can_open, can_socket_cfg, hm, hs, hi, hmtu, hb]
    by_cases hb0 : o.bind_ret = 0
    · cases hf : cfg.rx_filter <;>
        simp [can_open, can_socket_cfg, calls_since, hm, hs, hs1, hi, hmtu, hb0, hf]
    · cases hf : cfg.rx_filter <;>
        simp [can_open, can_socket_cfg, hm, hs, hi, hmtu, hb, hb0, hf]

/-- On `vcan0` with every call succeeding, `can_open` returns 0 and the handle
holds descriptor 3 and index 4. -/
theorem can_open_handle_all_or_nothing_witness :
    (can_open linux all_ok World.empty cfg_vcan0).1 = 0 ∧
    (can_open linux all_ok World.empty cfg_vcan0).2.1 = some { fd := 3, ifindex := 4 } :=
  ⟨by decide,
   ((can_open_handle_all_or_nothing linux all_ok World.empty cfg_vcan0).2.2
      (by decide)).2.2.2.2.1⟩

end RtCanTest

namespace RtCanTest

/-! ## The copy of the interface name -/

/-- The copy of the interface name is unchecked: the bytes of the name that do
not fit in `ifr_name` are written beyond it, whatever the outcomes. -/
theorem can_open_copies_unchecked (P : Platform) (o : OpenOutcomes) (w : World)
    (cfg : can_cfg) (hm : o.malloc_ok = true) :
    (can_open P o w cfg).2.2.oob_bytes =
      w.oob_bytes + (strlen cfg.ifname + 1 - P.IFNAMSIZ) := by
  have hw1 : ∀ (c : Syscall) (v : World), (v.log c).oob_bytes = v.oob_bytes := fun _ _ => rfl
  have hw2 : ∀ (r : Int) (v : World), (sys_socket r v).oob_bytes = v.oob_bytes := by
    intro r v
    unfold sys_socket
    split_ifs <;> rfl
  have hw3 : ∀ (r fd : Int) (f : List can_filter) (n : Nat) (v : World),
      (sys_set_filter r fd f n v).oob_bytes = v.oob_bytes := by
    intro r fd f n v
    unfold sys_set_filter
    split_ifs <;> rfl
  by_cases hs : o.socket_ret < 0
  · simp [can_open, can_socket_cfg, strcpy_ifr_name, hw1, hw2, hw3, hm, hs]
  by_cases hi : o.ifindex_ret = -1
  · simp [can_open, can_socket_cfg, strcpy_ifr_name, hw1, hw2, hw3, hm, hs, hi]
  by_cases hmtu : cfg.mtu > P.CAN_MTU
  · by_cases h3 : o.ifmtu_ret = -1
    · simp [can_open, can_socket_cfg, strcpy_ifr_name, hw1, hw2, hw3, hm, hs, hi, hmtu, h3]
    by_cases h4 : o.ifr_mtu = P.CANFD_MTU
    swap
    · simp [can_open, can_socket_cfg, strcpy_ifr_name, hw1, hw2, hw3, hm, hs, hi, hmtu, h3,
        h4]
    by_cases h5 : o.fd_frames_ret = 0
    swap
    · simp [can_open, can_socket_cfg, strcpy_ifr_name, hw1, hw2, hw3, hm, hs, hi, hmtu, h3,
        h4, h5]
    by_cases hb : o.bind_ret < 0
    · have hb0 : o.bind_ret ≠ 0 := by omega
      simp [can_open, can_socket_cfg, strcpy_ifr_name, hw1, hw2, hw3, hm, hs, hi, hmtu, h3,
        h4, h5, hb, hb0]
    · by_cases hb0 : o.bind_ret = 0 <;> cases hf : cfg.rx_filter <;>
        simp [can_open, can_socket_cfg, strcpy_ifr_name, hw1, hw2, hw3, hm, hs, hi, hmtu, h3,
          h4, h5, hb, hb0, hf]
  · by_cases hb : o.bind_ret < 0
    · have hb0 : o.bind_ret ≠ 0 := by omega
      simp [can_open, can_socket_cfg, strcpy_ifr_name, hw1, hw2, hw3, hm, hs, hi, hmtu, hb,
        hb0]
    · by_cases hb0 : o.bind_ret = 0 <;> cases hf : cfg.rx_filter <;>
        simp [can_open, can_socket_cfg, strcpy_ifr_name, hw1, hw2, hw3, hm, hs, hi, hmtu, hb,
          hb0, hf]

/-- A name that fits in `ifr_name` with its terminator is copied without a
byte written beyond the buffer, whatever the outcomes. -/
theorem can_open_name_fits (P : Platform) (o : OpenOutcomes) (w : World) (cfg : can_cfg)
    (hname : strlen cfg.ifname < P.IFNAMSIZ) :
    (can_open P o w cfg).2.2.oob_bytes = w.oob_bytes := by
  by_cases hm : o.malloc_ok = true
  · rw [can_open_copies_unchecked P o w cfg hm]
    omega
  · simp [can_open, hm]

/-! ## FD negotiation -/

/-- What the code does for a requested MTU above `CAN_MTU`: when allocation,
socket creation, the index lookup and the MTU query succeed and the queried
MTU differs from `CANFD_MTU`, `can_open` returns -4 with a NULL handle and
issues no bind. -/
theorem can_open_fd_mtu_mismatch (P : Platform) (o : OpenOutcomes) (w : World)
    (cfg : can_cfg) (hmtu : cfg.mtu > P.CAN_MTU) (hm : o.malloc_ok = true)
    (hs : 0 ≤ o.socket_ret) (hi : o.ifindex_ret ≠ -1) (h3 : o.ifmtu_ret ≠ -1)
    (h4 : o.ifr_mtu ≠ P.CANFD_MTU) :
    (can_open P o w cfg).1 = -4 ∧ (can_open P o w cfg).2.1 = none ∧
    ∀ fd ifindex, Syscall.bind fd ifindex ∉ calls_since w (can_open P o w cfg).2.2 := by
  have hs1 : ¬ o.socket_ret < 0 := not_lt.mpr hs
  simp [can_open, can_socket_cfg, calls_since, hm, hs1, hi, hmtu, h3, h4]

/-- Claim C4, evaluated where it fails. On Linux, with a requested MTU of 12
(greater than 8, not greater than `CAN_MTU` = 16) on an interface whose MTU is
16 and not `CANFD_MTU` = 72, `can_open` never queries the interface MTU: it
binds the socket and returns 0 with a handle. -/
theorem can_open_mtu_12_skips_fd_check :
    8 < cfg_mtu_12.mtu ∧ all_ok.ifr_mtu ≠ linux.CANFD_MTU ∧
    (can_open linux all_ok World.empty cfg_mtu_12).1 = 0 ∧
    (can_open linux all_ok World.empty cfg_mtu_12).2.1 = some { fd := 3, ifindex := 4 } ∧
    (can_open linux all_ok World.empty cfg_mtu_12).2.2.trace =
      [Syscall.socket, Syscall.ioctl_SIOCGIFINDEX 3 "can0", Syscall.bind 3 4] := by
  decide

/-- Claim C5. On a platform whose `CAN_MTU` is at least 8 (16 on Linux), for
every configuration with `mtu` at most 8 whose interface name fits in
`ifr_name` with its terminator, and every combination of outcomes, `can_open`
writes nothing beyond the name buffer, issues neither the MTU query nor the
CAN_RAW_FD_FRAMES socket option, and returns 0 with a handle whenever
allocation, socket creation, index lookup and bind succeed, whatever MTU the
interface has. -/
theorem can_open_classic_mtu (P : Platform) (o : OpenOutcomes) (w : World) (cfg : can_cfg)
    (hmtu : cfg.mtu ≤ 8) (hP : 8 ≤ P.CAN_MTU) (hname : strlen cfg.ifname < P.IFNAMSIZ) :
    (can_open P o w cfg).2.2.oob_bytes = w.oob_bytes ∧
    (∀ fd, Syscall.ioctl_SIOCGIFMTU fd ∉ calls_since w (can_open P o w cfg).2.2) ∧
    (∀ fd, Syscall.setsockopt_CAN_RAW_FD_FRAMES fd ∉
      calls_since w (can_open P o w cfg).2.2) ∧
    (o.malloc_ok = true → 0 ≤ o.socket_ret → o.ifindex_ret ≠ -1 → o.bind_ret = 0 →
      (can_open P o w cfg).1 = 0 ∧
      (can_open P o w cfg).2.1 = some { fd := o.socket_ret, ifindex := o.ifr_ifindex }) := by
  have hc : ¬ cfg.mtu > P.CAN_MTU := by omega
  refine ⟨can_open_name_fits P o w cfg hname, ?_⟩
  by_cases hm : o.malloc_ok = false
  · simp [can_open, calls_since, hm]
  by_cases hs : o.socket_ret < 0
  · simp [can_open, can_socket_cfg, calls_since, hm, hs]
  by_cases hi : o.ifindex_ret = -1
  · simp [can_open, can_socket_cfg, calls_since, hm, hs, hi]
  have hs1 : 0 ≤ o.socket_ret := not_lt.mp hs
  by_cases hb : o.bind_ret < 0
  · have hb0 : o.bind_ret ≠ 0 := by omega
    simp [can_open, can_socket_cfg, calls_since, hm, hs, hi, hc, hb, hb0]
  by_cases hb0 : o.bind_ret = 0
  · cases hf : cfg.rx_filter <;>
      simp [can_open, can_socket_cfg, calls_since, hm, hs, hs1, hi, hc, hb0, hf]
  · cases hf : cfg.rx_filter <;>
      simp [can_open, can_socket_cfg, calls_since, hm, hs, hi, hc, hb, hb0, hf]

/-- On Linux, a request with `mtu` 8 on an interface whose MTU is 72 opens in
classic mode: return 0, handle with descriptor 3 and index 4. -/
theorem can_open_classic_mtu_witness :
    (8 : Nat) ≤ 8 ∧ 8 ≤ linux.CAN_MTU ∧ strlen "vcan0" < linux.IFNAMSIZ ∧
    (can_open linux { all_ok with ifr_mtu := 72 } World.empty
      { cfg_vcan0 with mtu := 8 }).1 = 0 ∧
    (can_open linux { all_ok with ifr_mtu := 72 } World.empty
      { cfg_vcan0 with mtu := 8 }).2.1 = some { fd := 3, ifindex := 4 } :=
  ⟨by decide, by decide, by decide,
   (can_open_classic_mtu linux { all_ok with ifr_mtu := 72 } World.empty
      { cfg_vcan0 with mtu := 8 } (by decide) (by decide) (by decide)).2.2.2
      (by decide) (by decide) (by decide) (by decide)⟩

/-! ## Receive filter -/

/-- Claim C6. For a configuration whose interface name fits in `ifr_name` with
its terminator: nothing is written beyond the name buffer; with a non-NULL
`rx_filter`, when allocation, socket creation, index lookup, FD negotiation
(if requested) and bind succeed, `can_open` attempts the filter installation
and returns 0 with the handle for every return value of that installation;
with a NULL `rx_filter` no filter installation is issued, whatever the
outcomes. -/
theorem can_open_filter_best_effort (P : Platform) (o : OpenOutcomes) (w : World)
    (cfg : can_cfg) (hname : strlen cfg.ifname < P.IFNAMSIZ) :
    (∀ filter_ret : Int,
      (can_open P { o with filter_ret := filter_ret } w cfg).2.2.oob_bytes = w.oob_bytes) ∧
    (∀ filter, cfg.rx_filter = some filter →
      o.malloc_ok = true → 0 ≤ o.socket_ret → o.ifindex_ret ≠ -1 →
      (cfg.mtu > P.CAN_MTU →
        o.ifmtu_ret ≠ -1 ∧ o.ifr_mtu = P.CANFD_MTU ∧ o.fd_frames_ret = 0) →
      o.bind_ret = 0 →
      ∀ filter_ret : Int,
        (can_open P { o with filter_ret := filter_ret } w cfg).1 = 0 ∧
        (can_open P { o with filter_ret := filter_ret } w cfg).2.1 =
          some { fd := o.socket_ret, ifindex := o.ifr_ifindex } ∧
        Syscall.setsockopt_CAN_RAW_FILTER o.socket_ret filter cfg.rx_filter_len ∈
          calls_since w (can_open P { o with filter_ret := filter_ret } w cfg).2.2) ∧
    (cfg.rx_filter = none →
      ∀ fd filter len,
        Syscall.setsockopt_CAN_RAW_FILTER fd filter len ∉
          calls_since w (can_open P o w cfg).2.2) := by
  refine ⟨fun x => can_open_name_fits P { o with filter_ret := x } w cfg hname, ?_, ?_⟩
  · intro filter hf hm hs hi hfd hb x
    have hs1 : ¬ o.socket_ret < 0 := not_lt.mpr hs
    by_cases hmtu : cfg.mtu > P.CAN_MTU
    · obtain ⟨h3, h4, h5⟩ := hfd hmtu
      simp [can_open, can_socket_cfg, calls_since, hm, hs, hs1, hi, hmtu, h3, h4, h5, hb, hf]
    · simp [can_open, can_socket_cfg, calls_since, hm, hs, hs1, hi, hmtu, hb, hf]
  · intro hf fd filter len
    by_cases hm : o.malloc_ok = false
    · simp [can_open, calls_since, hm]
    by_cases hs : o.socket_ret < 0
    · simp [can_open, can_socket_cfg, calls_since, hm, hs]
    by_cases hi : o.ifindex_ret = -1
    · simp [can_open, can_socket_cfg, calls_since, hm, hs, hi]
    by_cases hmtu : cfg.mtu > P.CAN_MTU
    · by_cases h3 : o.ifmtu_ret = -1
      · simp [can_open, can_socket_cfg, calls_since, hm, hs, hi, hmtu, h3]
      by_cases h4 : o.ifr_mtu = P.CANFD_MTU
      swap
      · simp [can_open, can_socket_cfg, calls_since, hm, hs, hi, hmtu, h3, h4]
      by_cases h5 : o.fd_frames_ret = 0
      swap
      · simp [can_open, can_socket_cfg, calls_since, hm, hs, hi, hmtu, h3, h4, h5]
      by_cases hb : o.bind_ret < 0
      · have hb0 : o.bind_ret ≠ 0 := by omega
        simp [can_open, can_socket_cfg, calls_since, hm, hs, hi, hmtu, h3, h4, h5, hb, hb0,
          hf]
      · by_cases hb0 : o.bind_ret = 0 <;>
          simp [can_open, can_socket_cfg, calls_since, hm, hs, hi, hmtu, h3, h4, h5, hb,
            hb0, hf]
    · by_cases hb : o.bind_ret < 0
      · have hb0 : o.bind_ret ≠ 0 := by omega
        simp [can_open, can_socket_cfg, calls_since, hm, hs, hi, hmtu, hb, hb0, hf]
      · by_cases hb0 : o.bind_ret = 0 <;>
          simp [can_open, can_socket_cfg, calls_since, hm, hs, hi, hmtu, hb, hb0, hf]

/-- With one filter rule and every other call succeeding, `can_open` returns
0 when the filter installation returns -1. -/
theorem can_open_filter_best_effort_witness :
    strlen cfg_filtered.ifname < linux.IFNAMSIZ ∧
    cfg_filtered.rx_filter = some [{ can_id := 0x123, can_mask := 0x7FF }] ∧
    (can_open linux { all_ok with filter_ret := -1 } World.empty cfg_filtered).1 = 0 ∧
    (can_open linux { all_ok with filter_ret := -1 } World.empty cfg_filtered).2.1 =
      some { fd := 3, ifindex := 4 } :=
  ⟨by decide, rfl,
   ((can_open_filter_best_effort linux all_ok World.empty cfg_filtered (by decide)).2.1
      [{ can_id := 0x123, can_mask := 0x7FF }] rfl (by decide) (by decide) (by decide)
      (by decide) (by decide) (-1)).1,
   ((can_open_filter_best_effort linux all_ok World.empty cfg_filtered (by decide)).2.1
      [{ can_id := 0x123, can_mask := 0x7FF }] rfl (by decide) (by decide) (by decide)
      (by decide) (by decide) (-1)).2.1⟩

/-! ## Interface name -/

/-- Claim C8, evaluated where it fails. With a 16-character interface name,
`IFNAMSIZ` = 16, the socket created as descriptor 3 and the index lookup
failing, `can_open` returns -2 with a NULL handle, but the copy of the name has
written one byte past `ifr_name` (17 bytes into 16) before any call was made,
and descriptor 3 is left open. -/
theorem can_open_long_ifname_overflows :
    linux.IFNAMSIZ < strlen cfg_long_name.ifname + 1 ∧
    (can_open linux no_such_interface World.empty cfg_long_name).1 = -2 ∧
    (can_open linux no_such_interface World.empty cfg_long_name).2.1 = none ∧
    (can_open linux no_such_interface World.empty cfg_long_name).2.2.oob_bytes = 1 ∧
    (can_open linux no_such_interface World.empty cfg_long_name).2.2.open_fds = [3] := by
  decide

end RtCanTest

namespace RtCanTest

/-! ## can_close -/

/-- Claim C7. For every non-NULL handle and every outcome of `close`,
`can_close` issues exactly one close, on the descriptor of the handle, frees the
handle and leaves `*hdl` NULL; it returns 0 when the close returns 0 and the
negated errno, a negative value for a positive errno, when the close returns a
negative value. With a NULL `hdl` or a NULL `*hdl` it returns -1 and leaves the
process state untouched. -/
theorem can_close_contract (o : CloseOutcome) (w : World) (h : can_hdl) :
    calls_since w (can_close o w (some (some h))).2.2 = [Syscall.close h.fd] ∧
    (can_close o w (some (some h))).2.1 = some none ∧
    (can_close o w (some (some h))).2.2.heap_hdls = w.heap_hdls - 1 ∧
    (o.ret = 0 → (can_close o w (some (some h))).1 = 0) ∧
    (o.ret < 0 → (can_close o w (some (some h))).1 = -o.errno) ∧
    (o.ret < 0 → 0 < o.errno → (can_close o w (some (some h))).1 < 0) ∧
    can_close o w none = (-1, none, w) ∧
    can_close o w (some none) = (-1, some none, w) := by
  refine ⟨?_, rfl, rfl, ?_, ?_, ?_, rfl, rfl⟩
  · simp [can_close, calls_since, sys_close]
  · intro h0
    simp [can_close, h0]
  · intro h0
    simp [can_close, h0]
  · intro h0 he
    simp [can_close, h0, he]

/-- A close that fails with errno 9 (EBADF) makes `can_close` return -9, and a
close that succeeds makes it return 0. -/
theorem can_close_contract_witness :
    (can_close { ret := -1, errno := 9 } World.empty (some (some hdl_3_4))).1 = -9 ∧
    (can_close { ret := 0, errno := 0 } World.empty (some (some hdl_3_4))).1 = 0 :=
  ⟨(can_close_contract { ret := -1, errno := 9 } World.empty hdl_3_4).2.2.2.2.1 (by decide),
   (can_close_contract { ret := 0, errno := 0 } World.empty hdl_3_4).2.2.2.1 rfl⟩

/-! ## Transmit frame length -/

/-- Claim C9. For every frame with a requested length of at most 64, the length
stored by `main` before transmission, `can_dlc2len (can_len2dlc len)`, is a
supported length; it is the requested length when that one is supported, and
otherwise the largest supported length not exceeding it. -/
theorem main_tx_frame_len_normalized (frame : canfd_frame) (h : frame.len ≤ 64) :
    (main_tx_frame_len frame).len = can_dlc2len (can_len2dlc frame.len) ∧
    (main_tx_frame_len frame).len ∈ supported_lens ∧
    (frame.len ∈ supported_lens → (main_tx_frame_len frame).len = frame.len) ∧
    (main_tx_frame_len frame).len ≤ frame.len ∧
    (∀ m ∈ supported_lens, m ≤ frame.len → m ≤ (main_tx_frame_len frame).len) := by
  have key : ∀ n, n < 65 →
      can_dlc2len (can_len2dlc n) ∈ supported_lens ∧
      (n ∈ supported_lens → can_dlc2len (can_len2dlc n) = n) ∧
      can_dlc2len (can_len2dlc n) ≤ n ∧
      (∀ m ∈ supported_lens, m ≤ n → m ≤ can_dlc2len (can_len2dlc n)) := by
    decide
  obtain ⟨k1, k2, k3, k4⟩ := key frame.len (by omega)
  exact ⟨rfl, k1, k2, k3, k4⟩

/-- A requested length of 4 is kept. -/
theorem main_tx_frame_len_normalized_witness :
    frame_123.len ≤ 64 ∧ (main_tx_frame_len frame_123).len = frame_123.len :=
  ⟨by decide, (main_tx_frame_len_normalized frame_123 (by decide)).2.2.1 (by decide)⟩

/-! ## Time differences -/

/-- A value inside the signed 64-bit range is stored unchanged. -/
theorem wrap64_eq (x : Int) (h0 : -9223372036854775808 ≤ x) (h1 : x < 9223372036854775808) :
    wrap64 x = x := by
  unfold wrap64
  omega

/-- For normalized arguments whose seconds differ by less than 2^63,
`calc_time_diff` gives a normalized result that is the exact difference, its
seconds field is negative exactly when the second argument is the earlier one,
and that field is at most one below the difference of the seconds. -/
theorem calc_time_diff_exact (lo hi : timespec) (hlo : lo.normalized)
    (hhi : hi.normalized) (hfit : sec_diff_fits lo hi) :
    (calc_time_diff lo hi).normalized ∧
    (calc_time_diff lo hi).ns = hi.ns - lo.ns ∧
    ((calc_time_diff lo hi).tv_sec < 0 ↔ hi.ns < lo.ns) ∧
    hi.tv_sec - lo.tv_sec - 1 ≤ (calc_time_diff lo hi).tv_sec ∧
    (calc_time_diff lo hi).tv_sec ≤ hi.tv_sec - lo.tv_sec := by
  obtain ⟨l0, l1⟩ := hlo
  obtain ⟨h0, h1⟩ := hhi
  obtain ⟨f0, f1⟩ := hfit
  have hn : wrap64 (hi.tv_nsec - lo.tv_nsec) = hi.tv_nsec - lo.tv_nsec :=
    wrap64_eq _ (by omega) (by omega)
  have hs : wrap64 (hi.tv_sec - lo.tv_sec) = hi.tv_sec - lo.tv_sec :=
    wrap64_eq _ (by omega) (by omega)
  have hs1 : wrap64 (hi.tv_sec - lo.tv_sec - 1) = hi.tv_sec - lo.tv_sec - 1 :=
    wrap64_eq _ (by omega) (by omega)
  have hn1 : wrap64 (hi.tv_nsec - lo.tv_nsec + 1000000000) =
      hi.tv_nsec - lo.tv_nsec + 1000000000 :=
    wrap64_eq _ (by omega) (by omega)
  unfold calc_time_diff timespec.normalized timespec.ns
  simp only [hn, hs]
  by_cases hneg : hi.tv_nsec - lo.tv_nsec < 0
  · simp only [hneg, if_true, hs1, hn1]
    refine ⟨⟨by omega, by omega⟩, by omega, by omega, by omega, by omega⟩
  · simp only [hneg, if_false]
    refine ⟨⟨by omega, by omega⟩, by omega, by omega, by omega, by omega⟩

/-- Claim C10 as stated fails at the end of the 64-bit range: from one second
before the epoch to the last second of `time_t`, both normalized, the
subtraction of the seconds wraps and `calc_time_diff` gives the seconds field
-2^63; the result does not represent the difference, and its seconds field is
negative although `hi` is the later time. -/
theorem calc_time_diff_wraps :
    ts_minus_one.normalized ∧ ts_int64_max.normalized ∧
    calc_time_diff ts_minus_one ts_int64_max =
      { tv_sec := -9223372036854775808, tv_nsec := 0 } ∧
    (calc_time_diff ts_minus_one ts_int64_max).tv_sec * 1000000000 +
        (calc_time_diff ts_minus_one ts_int64_max).tv_nsec ≠
      (ts_int64_max.tv_sec * 1000000000 + ts_int64_max.tv_nsec) -
        (ts_minus_one.tv_sec * 1000000000 + ts_minus_one.tv_nsec) ∧
    ¬ ((calc_time_diff ts_minus_one ts_int64_max).tv_sec < 0 ↔
      ts_int64_max.tv_sec * 1000000000 + ts_int64_max.tv_nsec <
        ts_minus_one.tv_sec * 1000000000 + ts_minus_one.tv_nsec) := by
  decide

/-- Claim C10, amended. For normalized `lo` and `hi` whose seconds differ by
less than 2^63, `calc_time_diff lo hi` is normalized, represents exactly the
difference `hi - lo` in nanoseconds, and has a negative seconds field exactly
when `hi` is earlier than `lo`. In the TX loop, for a normalized TX interval
that is not zero and whose seconds stay within 2^63 of the elapsed seconds,
the sleep is skipped exactly when the elapsed time exceeds the interval. -/
theorem calc_time_diff_correct (lo hi : timespec) (hlo : lo.normalized)
    (hhi : hi.normalized) (hfit : sec_diff_fits lo hi) :
    (calc_time_diff lo hi).normalized ∧
    (calc_time_diff lo hi).tv_sec * 1000000000 + (calc_time_diff lo hi).tv_nsec =
      (hi.tv_sec * 1000000000 + hi.tv_nsec) - (lo.tv_sec * 1000000000 + lo.tv_nsec) ∧
    ((calc_time_diff lo hi).tv_sec < 0 ↔
      hi.tv_sec * 1000000000 + hi.tv_nsec < lo.tv_sec * 1000000000 + lo.tv_nsec) ∧
    (∀ tx_interval : timespec, tx_interval.normalized →
      ¬ (tx_interval.tv_sec = 0 ∧ tx_interval.tv_nsec = 0) →
      sec_diff_fits (calc_time_diff lo hi) tx_interval →
      (can_tx_thread_fn_step lo hi tx_interval = TxNext.skip_sleep ↔
        tx_interval.ns < hi.ns - lo.ns)) := by
  obtain ⟨e1, e2, e3, _, _⟩ := calc_time_diff_exact lo hi hlo hhi hfit
  refine ⟨e1, e2, e3, ?_⟩
  intro tx htx hnz hfit2
  obtain ⟨_, _, s3, _, _⟩ := calc_time_diff_exact (calc_time_diff lo hi) tx e1 htx hfit2
  unfold can_tx_thread_fn_step
  simp only [if_neg hnz]
  rw [← e2, ← s3]
  split_ifs with hlt
  · simp [hlt]
  · simp [hlt]

/-- From 5.9 s to 7.1 s the difference is 1.2 s, with a borrow; with a TX
interval of 1 s the sleep is skipped. -/
theorem calc_time_diff_correct_witness :
    timespec.normalized { tv_sec := 5, tv_nsec := 900000000 } ∧
    timespec.normalized { tv_sec := 7, tv_nsec := 100000000 } ∧
    sec_diff_fits { tv_sec := 5, tv_nsec := 900000000 }
      { tv_sec := 7, tv_nsec := 100000000 } ∧
    calc_time_diff { tv_sec := 5, tv_nsec := 900000000 }
      { tv_sec := 7, tv_nsec := 100000000 } = { tv_sec := 1, tv_nsec := 200000000 } ∧
    (calc_time_diff { tv_sec := 5, tv_nsec := 900000000 }
      { tv_sec := 7, tv_nsec := 100000000 }).normalized ∧
    can_tx_thread_fn_step { tv_sec := 5, tv_nsec := 900000000 }
      { tv_sec := 7, tv_nsec := 100000000 } { tv_sec := 1, tv_nsec := 0 } =
        TxNext.skip_sleep :=
  ⟨by decide, by decide, by decide, by decide,
   (calc_time_diff_correct { tv_sec := 5, tv_nsec := 900000000 }
      { tv_sec := 7, tv_nsec := 100000000 } (by decide) (by decide) (by decide)).1,
   ((calc_time_diff_correct { tv_sec := 5, tv_nsec := 900000000 }
      { tv_sec := 7, tv_nsec := 100000000 } (by decide) (by decide) (by decide)).2.2.2
      { tv_sec := 1, tv_nsec := 0 } (by decide) (by decide) (by decide)).2 (by decide)⟩

end RtCanTest
